import Mathlib

/-!
Verification of the ISO-TP / UDS CAN tool (`isotp_protocol.py`,
`uds_session_manager.py`, `core/can_interface.py`,
`core/command_project_manager.py`).

The Python code is shallowly embedded: byte strings become `List Nat`
(each element a byte value), mutable protocol objects become explicit
state records threaded through pure functions, and Python exceptions
that escape a function become `Option.none` results.  Wall-clock time
and thread scheduling are not modelled; where the code stores a
timestamp the embedding either drops the field or takes the current
time as an explicit argument.
-/

set_option maxRecDepth 10000

/-- High nibble of a PCI byte, as computed by `decode_frame`:
`(pci_byte >> 4) & 0x0F`. -/
def pciType (b : Nat) : Nat := (b >>> 4) &&& 0xF

/-- Low nibble of a PCI byte, as computed by `decode_frame`:
`pci_byte & 0x0F`. -/
def pciLow (b : Nat) : Nat := b &&& 0xF

/-- Embeds the `ISOTPFrame` dataclass (only the fields each frame kind
actually uses: `decode_frame` stores no length for first frames and no
data for flow-control frames). -/
inductive ISOTPFrameL where
  | single (data : List Nat)
  | first (data : List Nat)
  | consecutive (seq : Nat) (data : List Nat)
  | flowControl (fs bs st : Nat)
deriving DecidableEq, Repr

/-- Embeds `ISOTPProtocol.decode_frame`.  The Python body is wrapped in
`try/except` returning `None`, so the branches that raise
(`IndexError` on `can_data[1]` for a short standard first frame,
`ValueError` from `ISOTPFlowStatus(pci_low)` for a flow-status nibble
outside 0..2) are embedded as `none`. -/
def decodeFrame (cd : List Nat) : Option ISOTPFrameL :=
  match cd with
  | [] => none
  | pci :: rest =>
    if pciType pci = 0 then
      if pciLow pci = 0 then
        if cd.length < 3 then none
        else
          some (.single ((cd.drop 3).take ((cd.getD 1 0) <<< 8 ||| cd.getD 2 0)))
      else some (.single (rest.take (pciLow pci)))
    else if pciType pci = 1 then
      if pciLow pci = 0 then
        if cd.length < 4 then none
        else some (.first (cd.drop 3))
      else
        if cd.length < 2 then none
        else some (.first (cd.drop 2))
    else if pciType pci = 2 then
      some (.consecutive (pciLow pci) rest)
    else if pciType pci = 3 then
      if cd.length < 3 then none
      else if 2 < pciLow pci then none
      else some (.flowControl (pciLow pci) (cd.getD 1 0) (cd.getD 2 0))
    else none

/-- Embeds the fields of `ISOTPConfig` the transmit path reads. -/
structure ISOTPConfigL where
  maxFrameSize : Nat := 4095
  canFdEnabled : Bool := false
  txPadding : Bool := true
  txPaddingValue : Nat := 0xCC
deriving DecidableEq, Repr

/-- The default `ISOTPConfig()`. -/
def defaultISOTPConfig : ISOTPConfigL := {}

/-- The padding step at the end of `encode_frame`. -/
def padTo (cfg : ISOTPConfigL) (maxPayload : Nat) (fd : List Nat) : List Nat :=
  if cfg.txPadding ∧ fd.length < maxPayload then
    fd ++ List.replicate (maxPayload - fd.length) cfg.txPaddingValue
  else fd

/-- Embeds `ISOTPProtocol.encode_frame` (the CAN payload it builds; the
returned DLC is not modelled).  `none` embeds a raised
`ISOTPFrameError`. -/
def encodeFrame (cfg : ISOTPConfigL) (fr : ISOTPFrameL) (isFd : Bool) :
    Option (List Nat) :=
  let maxPayload := if isFd then 64 else 8
  let core : Option (List Nat) :=
    match fr with
    | .single data =>
      if data.length ≤ maxPayload - 1 then
        some ((0x00 ||| data.length) :: data)
      else if ¬ isFd ∨ data.length > 4095 then none
      else some (0x00 :: (data.length >>> 8) :: (data.length &&& 0xFF) :: data)
    | .first data =>
      if data.length > cfg.maxFrameSize then none
      else if data.length ≤ 0xFFF then
        some ((0x10 ||| (data.length >>> 8)) :: (data.length &&& 0xFF) :: data)
      else if ¬ isFd then none
      else some (0x10 :: (data.length >>> 8) :: (data.length &&& 0xFF) :: data)
    | .consecutive seq data => some ((0x20 ||| (seq &&& 0xF)) :: data)
    | .flowControl fs bs st => some [0x30 ||| fs, bs, st]
  core.map (padTo cfg maxPayload)

/-- The `ISOTPState` enum. -/
inductive ISOTPStateL where
  | idle | waitingFC | transmitting | receiving | timeout | error
deriving DecidableEq, Repr

/-- The transmit-side mutable fields of `ISOTPProtocol` (timestamps are
not modelled). -/
structure TxState where
  state : ISOTPStateL := .idle
  txBuffer : List Nat := []
  txSequence : Nat := 0
  txTotalLength : Nat := 0
  txRemaining : Nat := 0
  txNextFrameIndex : Nat := 0
  txBlockCounter : Nat := 0
  rxFlowBlockSize : Nat := 0
  rxFlowStMin : Nat := 0
deriving DecidableEq, Repr

/-- A freshly constructed / reset protocol object. -/
def initTxState : TxState := {}

/-- Embeds `ISOTPProtocol.send_data` together with the inlined
`_send_single_frame` / `_send_first_frame`.  The result is
`(new state, CAN payloads put on the tx queue, return value)`;
an overall `none` embeds an uncaught `ISOTPFrameError` from
`encode_frame`. -/
def sendData (cfg : ISOTPConfigL) (st : TxState) (data : List Nat) :
    Option (TxState × List (List Nat) × Bool) :=
  if st.state ≠ .idle then some (st, [], false)
  else if data.length > cfg.maxFrameSize then some (st, [], false)
  else
    let st0 : TxState :=
      { st with txBuffer := data, txTotalLength := data.length,
                txRemaining := data.length, txSequence := 0,
                txNextFrameIndex := 0, txBlockCounter := 0 }
    let maxPayload := if cfg.canFdEnabled then 64 else 7
    if data.length ≤ maxPayload then do
      let wire ← encodeFrame cfg (.single data) cfg.canFdEnabled
      some ({ st0 with state := .idle, txBuffer := [], txTotalLength := 0 },
            [wire], true)
    else do
      let ffMax := if cfg.canFdEnabled then 64 else 6
      let ff := data.take ffMax
      let wire ← encodeFrame cfg (.first ff) cfg.canFdEnabled
      some ({ st0 with state := .waitingFC,
                       txNextFrameIndex := ff.length,
                       txRemaining := st0.txRemaining - ff.length },
            [wire], true)

/-- Embeds `ISOTPProtocol._send_consecutive_frame`: emits at most one
consecutive frame and updates the transmit state. -/
def sendCF (cfg : ISOTPConfigL) (st : TxState) :
    Option (TxState × List (List Nat)) :=
  if st.txRemaining = 0 then some (st, [])
  else do
    let maxPayload := if cfg.canFdEnabled then 64 else 7
    let start := st.txNextFrameIndex
    let endIdx := min (start + maxPayload) st.txTotalLength
    let slice := (st.txBuffer.drop start).take (endIdx - start)
    let wire ← encodeFrame cfg (.consecutive st.txSequence slice) cfg.canFdEnabled
    let st1 : TxState :=
      { st with txNextFrameIndex := endIdx,
                txRemaining := st.txRemaining - slice.length,
                txSequence := (st.txSequence + 1) &&& 0xF,
                txBlockCounter := st.txBlockCounter + 1 }
    let st2 : TxState :=
      if st1.txRemaining = 0 then
        { st1 with state := .idle, txBuffer := [], txTotalLength := 0 }
      else st1
    some (st2, [wire])

/-- The `for _ in range(min(block_size, tx_remaining))` loop in
`_process_flow_control_frame`; the first argument is the iteration
count computed once at loop entry. -/
def fcLoop (cfg : ISOTPConfigL) :
    Nat → TxState → List (List Nat) → Option (TxState × List (List Nat))
  | 0, st, acc => some (st, acc)
  | k + 1, st, acc =>
    if st.txRemaining > 0 then do
      let (st1, fs) ← sendCF cfg st
      fcLoop cfg k st1 (acc ++ fs)
    else some (st, acc)

/-- Embeds `ISOTPProtocol._process_flow_control_frame` applied to a
decoded flow-control frame `FC(fs, bs, stmin)`.  Result:
`(new state, consecutive-frame payloads emitted, return value)`. -/
def processFlowControl (cfg : ISOTPConfigL) (st : TxState)
    (fs bs stmin : Nat) : Option (TxState × List (List Nat) × Bool) :=
  if st.state ≠ .waitingFC then some (st, [], false)
  else if fs = 0 then do
    let st0 : TxState :=
      { st with state := .transmitting, rxFlowBlockSize := bs,
                rxFlowStMin := stmin, txBlockCounter := 0 }
    let (st1, frames) ← fcLoop cfg (min bs st0.txRemaining) st0 []
    some (st1, frames, true)
  else if fs = 1 then some ({ st with state := .waitingFC }, [], true)
  else if fs = 2 then some ({ st with state := .error }, [], false)
  else some (st, [], true)

/-! ## UDS session engine (`uds_session_manager.py`) -/

/-- The value set of the `UDSNegativeResponseCode` enum; the constructor
`UDSNegativeResponseCode(data[2])` raises `ValueError` outside this set. -/
def validNRC (n : Nat) : Bool :=
  n ∈ [0x10, 0x11, 0x12, 0x13, 0x14, 0x21, 0x22, 0x24, 0x25, 0x26,
       0x31, 0x33, 0x35, 0x36, 0x37, 0x70, 0x71, 0x72, 0x73, 0x78,
       0x7E, 0x7F, 0x81, 0x82, 0x83, 0x84, 0x85, 0x86, 0x87, 0x88,
       0x89, 0x8A, 0x8B, 0x8C, 0x8D, 0x8F, 0x90, 0x91, 0x92, 0x93, 0x94]

/-- Embeds the `UDSResponse` dataclass (fields the session engine sets). -/
structure UDSResponseL where
  serviceId : Nat
  data : List Nat
  isNegative : Bool
  nrc : Option Nat
deriving DecidableEq, Repr

/-- Embeds `UDSSessionManager._process_response`: classifies one ISO-TP
payload.  `none` embeds "logged and discarded" (the early `return`s and
the caught `ValueError` for an unknown NRC byte).  Note the positive
branch tests `data[0] == UDSResponseCode.POSITIVE_RESPONSE`, i.e.
`data[0] == 0x40` exactly. -/
def processResponse (d : List Nat) : Option UDSResponseL :=
  match d with
  | [] => none
  | 0x7F :: sid :: nrc :: rest =>
    if validNRC nrc then some ⟨sid, rest, true, some nrc⟩ else none
  | b :: rest =>
    if b = 0x7F then none
    else if b = 0x40 then some ⟨b - 0x40, rest, false, none⟩
    else none

/-- Embeds the `UDSRequest` dataclass (fields `send_request` reads). -/
structure UDSRequestL where
  serviceId : Nat
  payload : List Nat
  expectResponse : Bool
deriving DecidableEq, Repr

/-- The response callback registered by `send_request`: the first
delivered payload that `_process_response` accepts and whose
`service_id` equals the request's wins. -/
def firstMatching (sid : Nat) : List (List Nat) → Option UDSResponseL
  | [] => none
  | d :: ds =>
    match processResponse d with
    | some r => if r.serviceId = sid then some r else firstMatching sid ds
    | none => firstMatching sid ds

/-- Embeds `UDSSessionManager.send_request`: `sendOk` is the result of
`isotp_manager.send_data`, `deliveries` the ISO-TP payloads handed to
`_process_response` while the caller waits (all assumed to arrive
within the timeout; a `none` result embeds both the send failure and
the timeout with no matching response). -/
def sendRequest (req : UDSRequestL) (sendOk : Bool)
    (deliveries : List (List Nat)) : Option UDSResponseL :=
  if ¬ sendOk then none
  else if req.expectResponse then firstMatching req.serviceId deliveries
  else some ⟨req.serviceId, [], false, none⟩

/-! ## CAN frame construction (`core/can_interface.py`) -/

/-- Embeds `CANFrame.__post_init__`: the `dlc` the frame carries after
construction, given the `dlc` argument and the `data` bytes. -/
def canFrameDlc (dlc : Nat) (data : List Nat) : Nat :=
  if dlc = 0 then data.length else dlc

/-! ## Command executor (`core/command_project_manager.py`) -/

/-- Observable actions of the executor control task. -/
inductive ExecEvent where
  | runCmd (id : String)
  | sleepMs (ms : Nat)
deriving DecidableEq, Repr

/-- The fields of `Command` that `_execute_group` reads. -/
structure ExecCommandL where
  id : String
  enabled : Bool := true
deriving DecidableEq, Repr

/-- The fields of `CommandGroup` that the executor reads. -/
structure ExecGroupL where
  commands : List ExecCommandL := []
  enabled : Bool := true
  repeatCount : Nat := 1
  repeatInterval : Nat := 1000
deriving DecidableEq, Repr

/-- One pass of the `for command in group.commands` body of
`_execute_group` (with the stop event never set): each enabled command
is executed, disabled ones are skipped.  `_execute_group` itself
contains no sleep. -/
def groupIterEvents (g : ExecGroupL) : List ExecEvent :=
  g.commands.filterMap fun c =>
    if c.enabled then some (.runCmd c.id) else none

/-- Embeds the `while repeat_count < group.repeat_count or
group.repeat_count == 0` loop of `_execute_group`, with the stop event
never set.  `fuel` bounds the number of iterations unrolled; the `Bool`
is `true` iff the loop exited (the Python call returned) within that
fuel, so `repeat_count = 0` yields `false` for every fuel. -/
def execGroupLoop (g : ExecGroupL) : Nat → Nat → List ExecEvent × Bool
  | 0, _ => ([], false)
  | fuel + 1, rc =>
    if rc < g.repeatCount ∨ g.repeatCount = 0 then
      let evs := groupIterEvents g
      if g.repeatCount > 0 ∧ rc + 1 ≥ g.repeatCount then (evs, true)
      else
        let r := execGroupLoop g fuel (rc + 1)
        (evs ++ r.1, r.2)
    else ([], true)

/-- Embeds `_execute_group` (stop event as a constant flag: when set,
the `if self.stop_event.is_set(): break` at the top of the loop fires
immediately). -/
def execGroup (stop : Bool) (g : ExecGroupL) (fuel : Nat) :
    List ExecEvent × Bool :=
  if stop then ([], true) else execGroupLoop g fuel 0

/-- Embeds the group walk of `_execute_project` (stop never set): for
each enabled group run `_execute_group`, then sleep
`group.repeat_interval` between groups when it is positive. -/
def execProject (gs : List ExecGroupL) (fuel : Nat) : List ExecEvent × Bool :=
  match gs with
  | [] => ([], true)
  | g :: rest =>
    if ¬ g.enabled then execProject rest fuel
    else
      let r := execGroupLoop g fuel 0
      if ¬ r.2 then (r.1, false)
      else
        let tail := if g.repeatInterval > 0 then [ExecEvent.sleepMs g.repeatInterval] else []
        let rr := execProject rest fuel
        (r.1 ++ tail ++ rr.1, rr.2)

/-! ## Command project persistence (`core/command_project_manager.py`) -/

/-- The Python values that end up in the dictionary passed to
`json.dump` by `save_project`.  `jbytes` is a raw Python `bytes`
object: the serialization code performs no hex encoding, so payload
byte fields reach `json.dump` as `bytes`. -/
inductive JVal where
  | jstr (s : String)
  | jint (n : Int)
  | jbool (b : Bool)
  | jnull
  | jbytes (bs : List Nat)
  | jarr (xs : List JVal)
  | jobj (kvs : List (String × JVal))
deriving Repr

mutual

/-- Whether `json.dump` accepts the value (it raises `TypeError` on any
`bytes` object). -/
def jsonSerializable : JVal → Bool
  | .jstr _ => true
  | .jint _ => true
  | .jbool _ => true
  | .jnull => true
  | .jbytes _ => false
  | .jarr xs => jsonSerializableList xs
  | .jobj kvs => jsonSerializableKVs kvs

def jsonSerializableList : List JVal → Bool
  | [] => true
  | x :: xs => jsonSerializable x && jsonSerializableList xs

def jsonSerializableKVs : List (String × JVal) → Bool
  | [] => true
  | kv :: kvs => jsonSerializable kv.2 && jsonSerializableKVs kvs

end

/-- The `CommandType` enum. -/
inductive CommandTypeL where
  | canFrame | udsCommand | waiting | commenting | script
deriving DecidableEq, Repr

/-- `CommandType.value`. -/
def CommandTypeL.value : CommandTypeL → String
  | .canFrame => "can_frame"
  | .udsCommand => "uds_command"
  | .waiting => "wait"
  | .commenting => "comment"
  | .script => "script"

/-- The `SendMode` enum. -/
inductive SendModeL where
  | single | periodic | onChange
deriving DecidableEq, Repr

/-- `SendMode.value`. -/
def SendModeL.value : SendModeL → String
  | .single => "single"
  | .periodic => "periodic"
  | .onChange => "on_change"

/-- The `CommandStatus` enum. -/
inductive CommandStatusL where
  | pending | running | success | failed | stopped
deriving DecidableEq, Repr

/-- `CommandStatus.value`. -/
def CommandStatusL.value : CommandStatusL → String
  | .pending => "pending"
  | .running => "running"
  | .success => "success"
  | .failed => "failed"
  | .stopped => "stopped"

/-- The `CANFrameCommand` dataclass. -/
structure CANFrameCommandL where
  arbitrationId : Nat := 0
  dataBytes : List Nat := []
  isExtendedId : Bool := false
  isFd : Bool := false
  bitrateSwitch : Bool := false
  errorStateIndicator : Bool := false
  dlc : Nat := 8
  comment : String := ""
deriving DecidableEq, Repr

/-- Dictionary form of a `CANFrameCommand` (field order of the
dataclass; the `data` field stays a raw `bytes` object). -/
def CANFrameCommandL.toDict (c : CANFrameCommandL) : JVal :=
  .jobj [("arbitration_id", .jint c.arbitrationId),
         ("data", .jbytes c.dataBytes),
         ("is_extended_id", .jbool c.isExtendedId),
         ("is_fd", .jbool c.isFd),
         ("bitrate_switch", .jbool c.bitrateSwitch),
         ("error_state_indicator", .jbool c.errorStateIndicator),
         ("dlc", .jint c.dlc),
         ("comment", .jstr c.comment)]

/-- The `UDSCommand` dataclass. -/
structure UDSCommandL where
  serviceId : Nat := 0
  dataBytes : List Nat := []
  subfunction : Option Nat := none
  timeout : Nat := 2000
  expectResponse : Bool := true
  comment : String := ""
deriving DecidableEq, Repr

/-- Dictionary form of a `UDSCommand` (the `data` field stays a raw
`bytes` object). -/
def UDSCommandL.toDict (c : UDSCommandL) : JVal :=
  .jobj [("service_id", .jint c.serviceId),
         ("data", .jbytes c.dataBytes),
         ("subfunction", match c.subfunction with
                         | some n => .jint n
                         | none => .jnull),
         ("timeout", .jint c.timeout),
         ("expect_response", .jbool c.expectResponse),
         ("comment", .jstr c.comment)]

/-- The `WaitCommand` dataclass. -/
structure WaitCommandL where
  duration : Nat := 1000
  comment : String := ""
deriving DecidableEq, Repr

/-- Dictionary form of a `WaitCommand`. -/
def WaitCommandL.toDict (c : WaitCommandL) : JVal :=
  .jobj [("duration", .jint c.duration), ("comment", .jstr c.comment)]

/-- The `Command` dataclass. -/
structure CommandL where
  id : String
  name : String
  commandType : CommandTypeL
  sendMode : SendModeL := .single
  period : Nat := 1000
  enabled : Bool := true
  status : CommandStatusL := .pending
  lastExecuted : Nat := 0
  executionCount : Nat := 0
  successCount : Nat := 0
  failCount : Nat := 0
  canFrame : Option CANFrameCommandL := none
  udsCommand : Option UDSCommandL := none
  waitCommand : Option WaitCommandL := none
  commentCommand : Option String := none
  scriptCommand : Option (String × String) := none
deriving DecidableEq, Repr

/-- Embeds `Command.to_dict`: `asdict` field order, enum fields
replaced by their `.value`, `None` sub-commands popped, present
sub-commands serialized by their own `to_dict` (which leaves payload
bytes as `bytes`). -/
def CommandL.toDict (c : CommandL) : JVal :=
  .jobj
    ([("id", .jstr c.id),
      ("name", .jstr c.name),
      ("command_type", .jstr c.commandType.value),
      ("send_mode", .jstr c.sendMode.value),
      ("period", .jint c.period),
      ("enabled", .jbool c.enabled),
      ("status", .jstr c.status.value),
      ("last_executed", .jint c.lastExecuted),
      ("execution_count", .jint c.executionCount),
      ("success_count", .jint c.successCount),
      ("fail_count", .jint c.failCount)]
     ++ (match c.canFrame with
         | some f => [("can_frame", f.toDict)]
         | none => [])
     ++ (match c.udsCommand with
         | some u => [("uds_command", u.toDict)]
         | none => [])
     ++ (match c.waitCommand with
         | some w => [("wait_command", w.toDict)]
         | none => [])
     ++ (match c.commentCommand with
         | some s => [("comment_command", JVal.jobj [("comment", .jstr s)])]
         | none => [])
     ++ (match c.scriptCommand with
         | some p => [("script_command",
                       JVal.jobj [("script_code", .jstr p.1), ("comment", .jstr p.2)])]
         | none => []))

/-- The `CommandGroup` dataclass. -/
structure CommandGroupL where
  id : String
  name : String
  description : String := ""
  enabled : Bool := true
  commands : List CommandL := []
  repeatCount : Nat := 1
  repeatInterval : Nat := 1000
  runInSequence : Bool := true
deriving DecidableEq, Repr

/-- Dictionary form of a `CommandGroup`. -/
def CommandGroupL.toDict (g : CommandGroupL) : JVal :=
  .jobj [("id", .jstr g.id),
         ("name", .jstr g.name),
         ("description", .jstr g.description),
         ("enabled", .jbool g.enabled),
         ("commands", .jarr (g.commands.map CommandL.toDict)),
         ("repeat_count", .jint g.repeatCount),
         ("repeat_interval", .jint g.repeatInterval),
         ("run_in_sequence", .jbool g.runInSequence)]

/-- The `CommandProject` dataclass (timestamps as integer ticks). -/
structure CommandProjectL where
  id : String
  name : String
  description : String := ""
  version : String := "1.0"
  createdAt : Nat := 0
  updatedAt : Nat := 0
  groups : List CommandGroupL := []
deriving DecidableEq, Repr

/-- Dictionary form of a `CommandProject`. -/
def CommandProjectL.toDict (p : CommandProjectL) : JVal :=
  .jobj [("id", .jstr p.id),
         ("name", .jstr p.name),
         ("description", .jstr p.description),
         ("version", .jstr p.version),
         ("created_at", .jint p.createdAt),
         ("updated_at", .jint p.updatedAt),
         ("groups", .jarr (p.groups.map CommandGroupL.toDict))]

/-- Embeds `CommandProjectManager.save_project`: refresh `updated_at`
to the current time `now`, build the dictionary, and run `json.dump`;
`none` embeds the caught `TypeError` (the method returns `False` and
writes no file). -/
def saveProject (now : Nat) (p : CommandProjectL) : Option JVal :=
  let d := (CommandProjectL.toDict { p with updatedAt := now })
  if jsonSerializable d then some d else none

/-! ## Concrete runs used by the evaluation theorems -/

/-- A 10-byte message: the smallest kind of multi-frame payload on
standard CAN. -/
def msg10 : List Nat := [1, 2, 3, 4, 5, 6, 7, 8, 9, 10]

/-- The transmit state after `send_data(msg10)` has emitted the First
Frame and entered `WAITING_FOR_FC`. -/
def afterFirstFrame : Option TxState :=
  (sendData defaultISOTPConfig initTxState msg10).map Prod.fst

/-- A project with one group holding one UDS command whose payload is
the two bytes `F1 90`. -/
def demoProject : CommandProjectL :=
  { id := "p0", name := "demo",
    groups := [{ id := "g0", name := "grp",
                 commands := [{ id := "c0", name := "read-did",
                                commandType := .udsCommand,
                                udsCommand := some { serviceId := 0x22,
                                                     dataBytes := [0xF1, 0x90] } }] }] }

/-- A group with one enabled command, `repeat_count = 2`,
`repeat_interval = 500`. -/
def demoGroup : ExecGroupL :=
  { commands := [{ id := "c0" }], repeatCount := 2, repeatInterval := 500 }

/-! ## Claim theorems -/

/-- C1: the claim says any first byte `B ≠ 0x7F` with `B & 0x40 = 0x40`
is classified as a positive response with effective SID `B - 0x40`, so
a reply starting `0x62` correlates to a `0x22` request.  The code
instead tests `data[0] == 0x40` exactly: the reply `62 F1 90` has
`0x62 & 0x40 = 0x40` yet `_process_response` discards it, while the
lone byte value `0x40` is accepted with SID `0`. -/
theorem uds_positive_needs_exact_0x40 :
    processResponse [0x62, 0xF1, 0x90] = none ∧
    0x62 &&& 0x40 = 0x40 ∧
    (0x62 : Nat) ≠ 0x7F ∧
    processResponse [0x40, 0x05] = some ⟨0, [0x05], false, none⟩ := by
  decide

/-- C2 counterexample: a `send_request` for SID `0x22` whose first
delivered reply is the pending negative response `7F 22 78` returns
that negative response itself (the later definitive reply `62 F1 90 AA`
is not waited for; it is even discarded by `_process_response`). -/
theorem send_request_returns_pending_nrc :
    sendRequest ⟨0x22, [0xF1, 0x90], true⟩ true
        [[0x7F, 0x22, 0x78], [0x62, 0xF1, 0x90, 0xAA]] =
      some ⟨0x22, [], true, some 0x78⟩ := by
  decide

/-- C2 amended: `send_request` performs no special handling of NRC
`0x78`: whenever the first delivered reply is the pending negative
response `7F SID 78` for the requested SID, the call returns that
negative response immediately; the wait is not restarted with
`p2_extended`. -/
theorem send_request_pending_is_final :
    ∀ (req : UDSRequestL) (extra : List Nat) (rest : List (List Nat)),
      req.expectResponse = true →
      sendRequest req true ((0x7F :: req.serviceId :: 0x78 :: extra) :: rest) =
        some ⟨req.serviceId, extra, true, some 0x78⟩ := by
  intro req extra rest hexp
  simp [sendRequest, hexp, firstMatching, processResponse, validNRC]

theorem send_request_pending_is_final_witness :
    sendRequest ⟨0x10, [], true⟩ true [[0x7F, 0x10, 0x78, 0xAB]] =
      some ⟨0x10, [0xAB], true, some 0x78⟩ :=
  send_request_pending_is_final ⟨0x10, [], true⟩ [0xAB] [] rfl

/-- C3: the claim says the First Frame PCI encodes the total message
length `L` (`0x10 | (L >> 8)` then `L & 0xFF`).  For the 10-byte
message the code emits `[0x10, 0x06, …]`: `encode_frame` is handed only
the 6-byte first slice by `_send_first_frame`, so the length field
holds the slice length 6, not `L = 10` (whose low byte is `0x0A`). -/
theorem first_frame_encodes_slice_length :
    (sendData defaultISOTPConfig initTxState msg10).map (fun r => r.2.1) =
      some [[0x10, 0x06, 1, 2, 3, 4, 5, 6]] ∧
    msg10.length = 10 ∧
    (6 : Nat) ≠ msg10.length &&& 0xFF := by
  decide

/-- C4: the claim says the n-th Consecutive Frame carries sequence
number `n mod 16`, the first being 1.  After the First Frame of the
10-byte message and a Flow Control `FC(Continue, BS=8, STmin=0)`, the
single Consecutive Frame emitted has PCI byte `0x20`: its sequence
nibble is 0, not 1 (`tx_sequence` starts at 0 and is used before being
incremented; the receive side of the same file expects 1 and would
reject this frame). -/
theorem first_cf_sequence_is_zero :
    (afterFirstFrame.bind fun st1 =>
        processFlowControl defaultISOTPConfig st1 0 8 0).map (fun r => r.2.1) =
      some [[0x20, 7, 8, 9, 10, 0xCC, 0xCC, 0xCC]] ∧
    pciLow 0x20 = 0 := by
  decide

/-- C5: the claim says a Flow Control `FC(Continue, BS=0, STmin)` in
`WaitFC` makes the sender transmit all remaining Consecutive Frames
(BS = 0 meaning an unlimited block).  The loop bound is
`min(block_size, tx_remaining) = min(0, 4) = 0`, so the code emits no
frame at all: 4 bytes remain unsent and the channel is stuck in
`TRANSMITTING`. -/
theorem fc_block_size_zero_sends_nothing :
    (afterFirstFrame.bind fun st1 =>
        processFlowControl defaultISOTPConfig st1 0 0 0).map
        (fun r => (r.2.1, r.1.state, r.1.txRemaining)) =
      some ([], ISOTPStateL.transmitting, 4) := by
  decide

/-- C6: a message longer than `max_frame_size` (the spec's
`max_message_length`, default 4095) is rejected by `send_data` with
return value `False`, no frame is emitted and the state is unchanged;
the channel being still idle, a subsequent send of a message within the
limit is accepted. -/
theorem send_data_too_large_rejected :
    ∀ (cfg : ISOTPConfigL) (st : TxState) (big d2 : List Nat),
      st.state = .idle →
      big.length > cfg.maxFrameSize →
      sendData cfg st big = some (st, [], false) ∧
      (d2.length ≤ 4095 →
        (sendData defaultISOTPConfig st d2).map (fun r => r.2.2) = some true) := by
  intro cfg st big d2 hstate hbig
  constructor
  · simp [sendData, hstate, hbig]
  · intro hd2
    have h1 : ¬ (4095 < d2.length) := by omega
    rcases le_or_lt d2.length 7 with hsmall | hlarge
    · have h2 : d2.length ≤ 8 - 1 := by omega
      simp [sendData, defaultISOTPConfig, hstate, encodeFrame, h1, h2, hsmall]
    · have h2 : ¬ (d2.length ≤ 7) := by omega
      have h3 : (6 : Nat) ⊓ d2.length = 6 := by omega
      simp [sendData, defaultISOTPConfig, hstate, encodeFrame, h1, h2, h3]

/-- C7: the claim says save-then-load is the identity, with payload
byte fields written as uppercase hex strings.  No hex encoding exists
in the save path: the `data` fields reach `json.dump` as raw `bytes`,
which `json.dump` rejects, so `save_project` returns `False` and writes
no file for any project containing a CAN-frame or UDS command — here a
project with one UDS command with payload `F1 90`.  (The load side,
`from_dict`, does parse hex strings, confirming that the hex format was
the intent.)  Without payload-bearing commands the dictionary is
serializable. -/
theorem save_project_bytes_payload_fails :
    saveProject 1 demoProject = none ∧
    (saveProject 1 { demoProject with groups := [] }).isSome = true := by
  constructor <;> rfl

/-- C8 counterexample: for the group with `repeat_count = 2`,
`repeat_interval = 500` and one enabled command, `_execute_group` runs
the command twice with no sleep event anywhere in between: the claimed
`repeat_interval` sleep between consecutive iterations of the same
group does not happen. -/
theorem execute_group_no_sleep_between_iterations :
    execGroup false demoGroup 10 = ([.runCmd "c0", .runCmd "c0"], true) ∧
    demoGroup.repeatCount = 2 ∧ demoGroup.repeatInterval = 500 ∧
    ExecEvent.sleepMs 500 ∉ (execGroup false demoGroup 10).1 := by
  decide

lemma groupIterEvents_runCmd (g : ExecGroupL) :
    ∀ e ∈ groupIterEvents g, ∃ i, e = ExecEvent.runCmd i := by
  intro e he
  simp only [groupIterEvents, List.mem_filterMap] at he
  obtain ⟨c, _, hc⟩ := he
  by_cases h : c.enabled = true
  · simp [h] at hc
    exact ⟨c.id, hc.symm⟩
  · simp [h] at hc

lemma execGroupLoop_run (g : ExecGroupL) :
    ∀ (n fuel rc : Nat), g.repeatCount = rc + n → 0 < n → n ≤ fuel →
      execGroupLoop g fuel rc =
        ((List.replicate n (groupIterEvents g)).flatten, true) := by
  intro n
  induction n with
  | zero => omega
  | succ m ih =>
    intro fuel rc hrep hpos hfuel
    obtain ⟨f, rfl⟩ : ∃ f, fuel = f + 1 := ⟨fuel - 1, by omega⟩
    by_cases hm : m = 0
    · subst hm
      have hcond : rc < g.repeatCount ∨ g.repeatCount = 0 := by omega
      have hfin : g.repeatCount > 0 ∧ rc + 1 ≥ g.repeatCount := by omega
      simp [execGroupLoop, hcond, hrep]
    · have h1 : rc < g.repeatCount := by omega
      have h2 : ¬ (g.repeatCount > 0 ∧ rc + 1 ≥ g.repeatCount) := by omega
      have hrec := ih f (rc + 1) (by omega) (by omega) (by omega)
      simp only [execGroupLoop, h1, true_or, if_true, h2, if_false, hrec,
                 List.replicate_succ, List.flatten_cons]

lemma execGroupLoop_unbounded (g : ExecGroupL) (h : g.repeatCount = 0) :
    ∀ fuel rc, (execGroupLoop g fuel rc).2 = false := by
  intro fuel
  induction fuel with
  | zero => intro rc; simp [execGroupLoop]
  | succ f ih =>
    intro rc
    have h2 : ¬ (g.repeatCount > 0 ∧ rc + 1 ≥ g.repeatCount) := by omega
    simp [execGroupLoop, h, h2, ih]

lemma execGroupLoop_no_sleep (g : ExecGroupL) :
    ∀ fuel rc ms, ExecEvent.sleepMs ms ∉ (execGroupLoop g fuel rc).1 := by
  intro fuel
  induction fuel with
  | zero => intro rc ms; simp [execGroupLoop]
  | succ f ih =>
    intro rc ms
    by_cases hc : rc < g.repeatCount ∨ g.repeatCount = 0
    · by_cases hfin : g.repeatCount > 0 ∧ rc + 1 ≥ g.repeatCount
      · simp only [execGroupLoop, hc, if_true, hfin]
        intro hmem
        obtain ⟨i, hi⟩ := groupIterEvents_runCmd g _ hmem
        exact ExecEvent.noConfusion hi
      · simp only [execGroupLoop, hc, if_true, hfin, if_false, List.mem_append]
        rintro (hmem | hmem)
        · obtain ⟨i, hi⟩ := groupIterEvents_runCmd g _ hmem
          exact ExecEvent.noConfusion hi
        · exact ih (rc + 1) ms hmem
    · simp [execGroupLoop, hc]

/-- C8 amended: with the stop event never set, the inner loop of
`_execute_group` runs the enabled commands of the group exactly
`repeat_count` times back to back — no sleep separates consecutive
iterations of the same group — and never terminates when
`repeat_count = 0`; with the stop event set the loop aborts at once
having run nothing.  The `repeat_interval` sleep instead happens in
`_execute_project`, once, after the whole group has finished and before
the next group. -/
theorem execute_group_repeat_semantics (g : ExecGroupL) (fuel : Nat) :
    (0 < g.repeatCount → g.repeatCount ≤ fuel →
      execGroup false g fuel =
        ((List.replicate g.repeatCount (groupIterEvents g)).flatten, true)) ∧
    (g.repeatCount = 0 → (execGroup false g fuel).2 = false) ∧
    execGroup true g fuel = ([], true) ∧
    (∀ ms, ExecEvent.sleepMs ms ∉ (execGroup false g fuel).1) ∧
    (∀ rest, g.enabled = true → 0 < g.repeatCount → g.repeatCount ≤ fuel →
      0 < g.repeatInterval →
      execProject (g :: rest) fuel =
        ((List.replicate g.repeatCount (groupIterEvents g)).flatten ++
           ExecEvent.sleepMs g.repeatInterval :: (execProject rest fuel).1,
         (execProject rest fuel).2)) := by
  refine ⟨fun hpos hfuel => ?_, fun h0 => ?_, by simp [execGroup], fun ms => ?_,
          fun rest hen hpos hfuel hint => ?_⟩
  · simpa [execGroup] using execGroupLoop_run g g.repeatCount fuel 0 (by omega) hpos hfuel
  · simpa [execGroup] using execGroupLoop_unbounded g h0 fuel 0
  · simpa [execGroup] using execGroupLoop_no_sleep g fuel 0 ms
  · have hrun := execGroupLoop_run g g.repeatCount fuel 0 (by omega) hpos hfuel
    simp [execProject, hen, hrun, hint]

theorem execute_group_repeat_semantics_witness :
    execGroup false demoGroup 10 = ([.runCmd "c0", .runCmd "c0"], true) ∧
    execGroup true demoGroup 10 = ([], true) ∧
    ExecEvent.sleepMs 500 ∉ (execGroup false demoGroup 10).1 ∧
    execProject [demoGroup] 10 =
      ([.runCmd "c0", .runCmd "c0", .sleepMs 500], true) := by
  have h := execute_group_repeat_semantics demoGroup 10
  have h1 := h.1 (by decide) (by decide)
  have h5 := h.2.2.2.2 [] (by decide) (by decide) (by decide) (by decide)
  refine ⟨by rw [h1]; decide, h.2.2.1, h.2.2.2.1 500, by rw [h5]; decide⟩

/-- C9: `CANFrame.__post_init__` replaces a `dlc` of 0 (the default) by
`len(data)`, so a constructed frame with non-empty data never carries
DLC 0, while an explicitly supplied non-zero `dlc` is kept even when it
disagrees with `len(data)`. -/
theorem can_frame_dlc_after_post_init :
    ∀ (dlc : Nat) (data : List Nat),
      (dlc = 0 → canFrameDlc dlc data = data.length) ∧
      (data ≠ [] → canFrameDlc dlc data ≠ 0) ∧
      (dlc ≠ 0 → canFrameDlc dlc data = dlc) := by
  intro dlc data
  refine ⟨fun h => by simp [canFrameDlc, h], fun hd => ?_,
          fun h => by simp [canFrameDlc, h]⟩
  by_cases h : dlc = 0
  · simp only [canFrameDlc, h, if_true, ne_eq, List.length_eq_zero]
    exact hd
  · simp [canFrameDlc, h]

theorem can_frame_dlc_after_post_init_witness :
    canFrameDlc 0 [0xAA, 0xBB] = 2 ∧
    canFrameDlc 8 [0xAA] ≠ 0 ∧
    canFrameDlc 3 [0xAA] = 3 :=
  ⟨(can_frame_dlc_after_post_init 0 [0xAA, 0xBB]).1 rfl,
   (can_frame_dlc_after_post_init 8 [0xAA]).2.1 (by decide),
   (can_frame_dlc_after_post_init 3 [0xAA]).2.2 (by decide)⟩

/-- C10: `decode_frame` is total — the embedding returns `some` frame
or `none` for every input, and the `try/except` in the source converts
every raised exception into `None` — and returns `None` exactly in the
claimed cases: empty input, an extended single frame or a flow-control
frame shorter than 3 bytes, an extended first frame shorter than
4 bytes, and a flow-control frame whose flow-status nibble is not in
0..2. -/
theorem decode_frame_total_and_none_cases :
    ∀ (cd : List Nat),
      (decodeFrame cd = none ∨ ∃ fr, decodeFrame cd = some fr) ∧
      (cd = [] → decodeFrame cd = none) ∧
      (∀ b rest, cd = b :: rest → pciType b = 0 → pciLow b = 0 →
        cd.length < 3 → decodeFrame cd = none) ∧
      (∀ b rest, cd = b :: rest → pciType b = 3 →
        cd.length < 3 → decodeFrame cd = none) ∧
      (∀ b rest, cd = b :: rest → pciType b = 1 → pciLow b = 0 →
        cd.length < 4 → decodeFrame cd = none) ∧
      (∀ b rest, cd = b :: rest → pciType b = 3 → 2 < pciLow b →
        decodeFrame cd = none) := by
  intro cd
  refine ⟨?_, fun h => by subst h; rfl, ?_, ?_, ?_, ?_⟩
  · cases h : decodeFrame cd with
    | none => exact Or.inl rfl
    | some fr => exact Or.inr ⟨fr, rfl⟩
  · rintro b rest rfl htype hlow hlen
    simp only [List.length_cons] at hlen
    simp [decodeFrame, htype, hlow]
    omega
  · rintro b rest rfl htype hlen
    simp only [List.length_cons] at hlen
    simp [decodeFrame, htype]
    omega
  · rintro b rest rfl htype hlow hlen
    simp only [List.length_cons] at hlen
    simp [decodeFrame, htype, hlow]
    omega
  · rintro b rest rfl htype hfs
    simp [decodeFrame, htype, hfs, Nat.not_lt.2 (le_of_lt hfs)]

theorem decode_frame_total_and_none_cases_witness :
    decodeFrame [] = none ∧
    decodeFrame [0x00, 0x05] = none ∧
    decodeFrame [0x30, 0x08] = none ∧
    decodeFrame [0x10, 0x00, 0x01] = none ∧
    decodeFrame [0x33, 0x00, 0x00] = none :=
  ⟨(decode_frame_total_and_none_cases []).2.1 rfl,
   (decode_frame_total_and_none_cases [0x00, 0x05]).2.2.1 0x00 [0x05]
     rfl (by decide) (by decide) (by decide),
   (decode_frame_total_and_none_cases [0x30, 0x08]).2.2.2.1 0x30 [0x08]
     rfl (by decide) (by decide),
   (decode_frame_total_and_none_cases [0x10, 0x00, 0x01]).2.2.2.2.1 0x10 [0x00, 0x01]
     rfl (by decide) (by decide) (by decide),
   (decode_frame_total_and_none_cases [0x33, 0x00, 0x00]).2.2.2.2.2 0x33 [0x00, 0x00]
     rfl (by decide) (by decide)⟩

theorem send_data_too_large_rejected_witness :
    sendData defaultISOTPConfig initTxState (List.replicate 4096 0) =
      some (initTxState, [], false) ∧
    (sendData defaultISOTPConfig initTxState [0x02, 0x10, 0x01]).map
      (fun r => r.2.2) = some true := by
  have h := send_data_too_large_rejected defaultISOTPConfig initTxState
    (List.replicate 4096 0) [0x02, 0x10, 0x01] rfl
    (by norm_num [defaultISOTPConfig])
  exact ⟨h.1, h.2 (by norm_num)⟩
